import Mathlib

/-!
Verification of the InterviewReader session/token/identity subsystem.

The definitions below are a shallow embedding of the repository's
JavaScript source: the Mongo collections become Lean lists, documents
become structures, and each service function becomes a pure function on
that state.  Timestamps are naturals (milliseconds for session state,
seconds for token expiry, matching how each source file uses them).
-/

/-- OAuth providers supported by the system (`provider` enum of the
Session schema and the `$\x7bprovider\x7dId` fields of the User schema). -/
inductive Provider where
  | google
  | github
  | linkedin
deriving Repr, DecidableEq

/-- A document of the User collection (User.model.js).  `loginCount` is
the denormalized active-session counter; it is an `Int` so that the
"never negative" invariant is a real statement. -/
structure User where
  uid : Nat
  email : String
  name : String
  avatar : String
  googleId : Option String
  githubId : Option String
  linkedinId : Option String
  isActive : Bool
  lastLoginAt : Nat
  loginCount : Int
deriving Repr, DecidableEq

/-- The `\x7bprovider\x7dId` field of a user. -/
def User.providerId (u : User) : Provider → Option String
  | .google => u.googleId
  | .github => u.githubId
  | .linkedin => u.linkedinId

/-- Setting the `\x7bprovider\x7dId` field of a user. -/
def User.setProviderId (u : User) (p : Provider) (v : String) : User :=
  match p with
  | .google => { u with googleId := some v }
  | .github => { u with githubId := some v }
  | .linkedin => { u with linkedinId := some v }

/-- `userSchema.methods.updateLoginInfo`: bump `lastLoginAt` and
increment the active-session counter. -/
def User.updateLoginInfo (u : User) (now : Nat) : User :=
  { u with lastLoginAt := now, loginCount := u.loginCount + 1 }

/-- `userSchema.methods.decrementLoginCount`: decrement the counter only
when it is positive (floor at zero). -/
def User.decrementLoginCount (u : User) : User :=
  if u.loginCount > 0 then { u with loginCount := u.loginCount - 1 } else u

/-- A document of the Session collection (Session.model.js). -/
structure Session where
  sid : Nat
  userId : Nat
  refreshToken : String
  accessToken : String
  provider : Provider
  isActive : Bool
  lastUsed : Nat
  expiresAt : Nat
  loggedOutAt : Option Nat
deriving Repr, DecidableEq

/-- Mongo `deleteMany p`: the documents kept and the deleted count. -/
def deleteMany (p : Session → Bool) (db : List Session) : List Session × Nat :=
  (db.filter (fun s => !(p s)), (db.filter p).length)

/- ===================== Token Issuer (Token.js) ===================== -/

/-- Environment configuration consumed by the token layer: the two
signing secrets and the two expiry windows (seconds). -/
structure Env where
  accessSecret : String
  refreshSecret : String
  accessExpirySec : Nat
  refreshExpirySec : Nat
deriving Repr, DecidableEq

/-- The claims a token of this system carries (`_id` and the kind tag). -/
structure JwtPayload where
  subjectId : String
  type : String
deriving Repr, DecidableEq

/-- A signed token: payload, registered claims and the signing secret
(standing in for the signature). -/
structure Jwt where
  payload : JwtPayload
  iss : String
  aud : String
  exp : Nat
  secret : String
deriving Repr, DecidableEq

/-- The error classes the `jsonwebtoken` library throws, identified by
their `name` as the middleware's error map does. -/
inductive JwtLibError where
  | tokenExpiredError
  | jsonWebTokenError
deriving Repr, DecidableEq

/-- A plain JavaScript `Error` as rethrown by the verify helpers:
`name` is always "Error", only `message` is specific. -/
structure JsError where
  name : String
  message : String
deriving Repr, DecidableEq

def TOKEN_ISSUER : String := "InterviewReader"
def TOKEN_AUDIENCE : String := "InterviewReader-Users"

/-- `jwt.verify(token, secret, \x7balgorithms, issuer, audience\x7d)`:
signature first, then expiry, then audience and issuer, following the
library's check order.  Expired means `now ≥ exp`. -/
def jwtVerify (t : Jwt) (secret iss aud : String) (now : Nat) :
    Except JwtLibError JwtPayload :=
  if t.secret ≠ secret then .error .jsonWebTokenError
  else if t.exp ≤ now then .error .tokenExpiredError
  else if t.aud ≠ aud then .error .jsonWebTokenError
  else if t.iss ≠ iss then .error .jsonWebTokenError
  else .ok t.payload

/-- `generateAccessToken(userId, additionalPayload)`: payload is
`\x7b_id, type: 'access', ...additionalPayload\x7d`, so a `type` key in the
additional payload (modelled by `tyOv`) overrides the kind tag. -/
def generateAccessToken (env : Env) (userId : String) (tyOv : Option String)
    (now : Nat) : Except JsError Jwt :=
  if userId = "" then
    .error ⟨"Error", "User ID is required for token generation"⟩
  else
    .ok ⟨⟨userId, tyOv.getD "access"⟩, TOKEN_ISSUER, TOKEN_AUDIENCE,
      now + env.accessExpirySec, env.accessSecret⟩

/-- `generateRefreshToken(userId, additionalPayload)`. -/
def generateRefreshToken (env : Env) (userId : String) (tyOv : Option String)
    (now : Nat) : Except JsError Jwt :=
  if userId = "" then
    .error ⟨"Error", "User ID is required for token generation"⟩
  else
    .ok ⟨⟨userId, tyOv.getD "refresh"⟩, TOKEN_ISSUER, TOKEN_AUDIENCE,
      now + env.refreshExpirySec, env.refreshSecret⟩

/-- `verifyAccessToken(token)`: verify against the access secret, then
check the kind tag; every failure is rethrown as a plain `Error` (name
"Error") with a specific message. -/
def verifyAccessToken (env : Env) (t : Jwt) (now : Nat) :
    Except JsError JwtPayload :=
  match jwtVerify t env.accessSecret TOKEN_ISSUER TOKEN_AUDIENCE now with
  | .error .tokenExpiredError => .error ⟨"Error", "Access token has expired"⟩
  | .error .jsonWebTokenError => .error ⟨"Error", "Invalid access token"⟩
  | .ok p =>
      if p.type ≠ "access" then
        .error ⟨"Error", "Token verification failed: Invalid token type"⟩
      else .ok p

/-- `verifyRefreshToken(token)`. -/
def verifyRefreshToken (env : Env) (t : Jwt) (now : Nat) :
    Except JsError JwtPayload :=
  match jwtVerify t env.refreshSecret TOKEN_ISSUER TOKEN_AUDIENCE now with
  | .error .tokenExpiredError => .error ⟨"Error", "Refresh token has expired"⟩
  | .error .jsonWebTokenError => .error ⟨"Error", "Invalid refresh token"⟩
  | .ok p =>
      if p.type ≠ "refresh" then
        .error ⟨"Error", "Token verification failed: Invalid token type"⟩
      else .ok p

/-- Whether an `Except` result is a success. -/
def isOkE {ε α : Type} : Except ε α → Bool
  | .ok _ => true
  | .error _ => false

/-- The ApiError produced by the auth middleware on a token failure:
HTTP status, top-level message and the `auth` detail field. -/
structure ApiErrorM where
  status : Nat
  message : String
  authDetail : String
deriving Repr, DecidableEq

/-- `handleAuthError` of auth.middlewares.js: map the caught error by
its `name`; anything that is not one of the three jwt library error
names falls to the generic "Authentication failed" entry. -/
def handleAuthError (e : JsError) : ApiErrorM :=
  if e.name = "TokenExpiredError" then ⟨401, "Access token has expired", "Token expired"⟩
  else if e.name = "JsonWebTokenError" then ⟨401, "Invalid access token", "Invalid token format"⟩
  else if e.name = "NotBeforeError" then ⟨401, "Token not active yet", "Token not yet valid"⟩
  else ⟨401, "Authentication failed", e.message⟩

/-- Step 2 of `verifyJwtToken`: verify the extracted access token and,
on failure, the ApiError that `handleAuthError` builds from it. -/
def authGateTokenError (env : Env) (t : Jwt) (now : Nat) : Option ApiErrorM :=
  match verifyAccessToken env t now with
  | .error e => some (handleAuthError e)
  | .ok _ => none

/- ============== Session Store statics (Session.model.js) ============== -/

/-- One step of insertion into a list kept descending by `lastUsed`. -/
def insertByLastUsedDesc (x : Session) : List Session → List Session
  | [] => [x]
  | y :: ys =>
      if x.lastUsed ≥ y.lastUsed then x :: y :: ys
      else y :: insertByLastUsedDesc x ys

/-- Mongo `.sort(\x7b lastUsed: -1 \x7d)`: sort descending by `lastUsed`
(insertion sort; ties keep relative order, which no theorem below relies
on). -/
def sortByLastUsedDesc : List Session → List Session
  | [] => []
  | x :: xs => insertByLastUsedDesc x (sortByLastUsedDesc xs)

/-- JavaScript `arr.slice(start)` for a possibly negative `start`:
a negative index counts from the end, clamped at the front. -/
def jsSliceFrom (start : Int) (l : List Session) : List Session :=
  if start < 0 then l.drop ((l.length : Int) + start).toNat
  else l.drop start.toNat

/-- `Session.getActiveSessions(userId)`: the user's active, unexpired
sessions, most recently used first. -/
def getActiveSessions (now userId : Nat) (db : List Session) : List Session :=
  sortByLastUsedDesc
    (db.filter (fun s => s.userId == userId && s.isActive && now < s.expiresAt))

/-- `Session.deactivateOldSessions(userId, maxSessions)`: when the user
is at or above the cap, mark the active sessions from index
`maxSessions - 1` of the most-recent-first list (the least recently
used ones) inactive. -/
def deactivateOldSessions (now userId maxSessions : Nat) (db : List Session) :
    List Session :=
  let sessions := getActiveSessions now userId db
  if sessions.length ≥ maxSessions then
    let toDeactivate := (jsSliceFrom ((maxSessions : Int) - 1) sessions).map (·.sid)
    db.map (fun s =>
      if toDeactivate.contains s.sid then { s with isActive := false } else s)
  else db

/-- `Session.cleanExpiredSessions()`: delete every session that is
expired (`expiresAt < now`) or inactive; returns survivors and the
deleted count. -/
def cleanExpiredSessions (now : Nat) (db : List Session) :
    List Session × Nat :=
  deleteMany (fun s => decide (s.expiresAt < now) || !s.isActive) db

/- ========= Session creation on login (oauthControllers helpers) ========= -/

/-- `SESSION_CONFIG.REFRESH_TOKEN_EXPIRY_DAYS` as milliseconds
(`calculateExpiryDate(10)`). -/
def REFRESH_EXPIRY_MS : Nat := 10 * 24 * 60 * 60 * 1000

/-- `performSessionCleanup(userId)`: global expired/inactive purge
(`CLEANUP_EXPIRED_ON_LOGIN` is true), then cap enforcement. -/
def performSessionCleanup (now userId maxSessions : Nat) (db : List Session) :
    List Session :=
  deactivateOldSessions now userId maxSessions (cleanExpiredSessions now db).1

/-- `createUserSession`: insert a fresh active session whose expiry is
refresh-token based and whose `lastUsed` is the creation time. -/
def createUserSession (userId : Nat) (accessToken refreshToken : String)
    (provider : Provider) (now sid : Nat) (db : List Session) : List Session :=
  db ++ [⟨sid, userId, refreshToken, accessToken, provider, true, now,
    now + REFRESH_EXPIRY_MS, none⟩]

/-- Steps 2 and 4 of `loginOrCreateUser` restricted to the Session
collection: cleanup and cap enforcement, then the new session. -/
def loginSessionStep (userId cap now sid : Nat) (db : List Session) :
    List Session :=
  createUserSession userId (toString sid) (toString sid) Provider.google now sid
    (performSessionCleanup now userId cap db)

/-- `count` successive logins of one user at times `0, 1, …`, the login
at time `k` creating session id `k + 1`. -/
def runLogins (userId cap : Nat) : Nat → List Session
  | 0 => []
  | k + 1 => loginSessionStep userId cap k (k + 1) (runLogins userId cap k)

/-- The session the login at time `i` creates for `userId` (id `i + 1`),
with its activity flag. -/
def loginSession (userId i : Nat) (active : Bool) : Session :=
  ⟨i + 1, userId, toString (i + 1), toString (i + 1), Provider.google, active,
    i, i + REFRESH_EXPIRY_MS, none⟩

/- ============ sessionService.invalidateAllOtherSessions ============ -/

/-- Result of `invalidateAllOtherSessions`: the two collections after
the call and `result.modifiedCount`. -/
structure InvalidateOthersResult where
  sessions : List Session
  users : List User
  invalidatedSessions : Nat
deriving Repr, DecidableEq

/-- The filter of the `updateMany`: the user's active sessions whose
access token differs from the caller's. -/
def otherActiveSession (userId : Nat) (currentAccessToken : String)
    (s : Session) : Bool :=
  s.userId == userId && s.isActive && s.accessToken != currentAccessToken

/-- `SessionService.invalidateAllOtherSessions(userId, currentAccessToken)`:
deactivate every other active session of the user; only when at least
one was modified, set the user's `loginCount` to 1. -/
def invalidateAllOtherSessions (now userId : Nat) (currentAccessToken : String)
    (db : List Session) (users : List User) : InvalidateOthersResult :=
  let modifiedCount := (db.filter (otherActiveSession userId currentAccessToken)).length
  let db' := db.map (fun s =>
    if otherActiveSession userId currentAccessToken s then
      { s with isActive := false, loggedOutAt := some now }
    else s)
  let users' :=
    if modifiedCount > 0 then
      users.map (fun u => if u.uid == userId then { u with loginCount := 1 } else u)
    else users
  ⟨db', users', modifiedCount⟩

/- ============ logout controllers (authControllers) ============ -/

/-- `Session.deleteOne(\x7b refreshToken, isActive: true \x7d)`: remove the
first active session carrying the refresh token; the deleted count. -/
def deleteOneSession (rt : String) : List Session → List Session × Nat
  | [] => ([], 0)
  | s :: rest =>
      if s.refreshToken == rt && s.isActive then (rest, 1)
      else
        let r := deleteOneSession rt rest
        (s :: r.1, r.2)

/-- `User.findById(userId)` followed by `user.decrementLoginCount()`. -/
def decrementLoginCountFor (userId : Nat) (users : List User) : List User :=
  users.map (fun u => if u.uid == userId then u.decrementLoginCount else u)

/-- `deleteSessionAndUpdateCount(refreshToken, userId)`: delete the
active session for the refresh token; only when something was deleted
and a user id was recovered from the access token, decrement that
user's counter. -/
def deleteSessionAndUpdateCount (rt : String) (userIdOpt : Option Nat)
    (db : List Session) (users : List User) :
    List Session × List User × Nat :=
  let r := deleteOneSession rt db
  match userIdOpt with
  | some uid => if r.2 > 0 then (r.1, decrementLoginCountFor uid users, r.2)
                else (r.1, users, r.2)
  | none => (r.1, users, r.2)

/-- `cleanupExpiredSessions(userId)` of the logout controller: delete
the user's sessions that are expired or inactive. -/
def cleanupExpiredSessionsFor (userId now : Nat) (db : List Session) :
    List Session :=
  (deleteMany (fun s =>
    s.userId == userId && (decide (s.expiresAt < now) || !s.isActive)) db).1

/-- What a logout endpoint sends and leaves behind: HTTP status, the
reported `sessionsDeleted`, and both collections. -/
structure LogoutResult where
  status : Nat
  sessionsDeleted : Nat
  sessions : List Session
  users : List User
deriving Repr, DecidableEq

/-- `logout` (POST /auth/logout): cookies cleared first, then — only if
the refresh-token cookie is present — the session delete with counter
update, then — only if the access token yielded a user id — the
per-user expired/inactive purge; always HTTP 200.  `accessUserId` is
`getUserIdFromToken(accessToken)`: `some` when the access cookie held a
token that verified, `none` otherwise. -/
def logout (refreshTokenC : Option String) (accessUserId : Option Nat)
    (now : Nat) (db : List Session) (users : List User) : LogoutResult :=
  let afterDelete :=
    match refreshTokenC with
    | some rt => deleteSessionAndUpdateCount rt accessUserId db users
    | none => (db, users, 0)
  let db2 :=
    match accessUserId with
    | some uid => cleanupExpiredSessionsFor uid now afterDelete.1
    | none => afterDelete.1
  ⟨200, afterDelete.2.2, db2, afterDelete.2.1⟩

/-- `logoutAllDevices` (POST /auth/logout-all): with a resolved user id,
hard-delete every session row of the user and, if any row went, reset
the counter to 0. -/
def logoutAllDevices (userIdOpt : Option Nat) (db : List Session)
    (users : List User) : LogoutResult :=
  match userIdOpt with
  | none => ⟨200, 0, db, users⟩
  | some uid =>
      let deleted := (db.filter (fun s => s.userId == uid)).length
      let db' := db.filter (fun s => !(s.userId == uid))
      let users' :=
        if deleted > 0 then
          users.map (fun u => if u.uid == uid then { u with loginCount := 0 } else u)
        else users
      ⟨200, deleted, db', users'⟩

/- ============ User Identity Resolver (oauthControllers) ============ -/

/-- `findExistingUser(provider, id, email)`: single query, first user
matching the provider-id clause or the email clause. -/
def findExistingUser (provider : Provider) (id email : String)
    (db : List User) : Option User :=
  db.find? (fun u => u.providerId provider == some id || u.email == email)

/-- `createNewUser(provider, id, email, name, avatar)`: a fresh user
whose slot for the provider holds `id` (schema defaults for the rest). -/
def createNewUser (provider : Provider) (id email name avatar : String)
    (newUid : Nat) : User :=
  (⟨newUid, email, name, avatar, none, none, none, true, 0, 0⟩ : User).setProviderId
    provider id

/-- `updateUserProviderData(user, provider, id)`: backfill the provider
id only when the slot is empty; otherwise the user is returned as is. -/
def updateUserProviderData (u : User) (provider : Provider) (id : String) :
    User :=
  if u.providerId provider = none then u.setProviderId provider id else u

/-- Saving a user document: replace the rows with its `_id`. -/
def saveUser (db : List User) (u : User) : List User :=
  db.map (fun v => if v.uid == u.uid then u else v)

/-- Step 1 of `loginOrCreateUser` plus `updateLoginInfo`: find or create
the user, backfill the provider id on an existing match, and bump the
login metadata.  Returns the resolved user and the User collection. -/
def loginOrCreateUserCore (provider : Provider) (id email name avatar : String)
    (newUid now : Nat) (db : List User) : User × List User :=
  match findExistingUser provider id email db with
  | none =>
      let u := (createNewUser provider id email name avatar newUid).updateLoginInfo now
      (u, db ++ [u])
  | some u =>
      let u' := (updateUserProviderData u provider id).updateLoginInfo now
      (u', saveUser db u')

/- ===================== Helper lemmas ===================== -/

/-- A successful library verification returns the token's own payload. -/
lemma jwtVerify_ok_payload (t : Jwt) (secret iss aud : String) (now : Nat)
    (p : JwtPayload) (h : jwtVerify t secret iss aud now = .ok p) :
    p = t.payload := by
  unfold jwtVerify at h
  repeat' split at h
  all_goals simp_all

/-- A token whose kind tag is not `refresh` is never accepted by
`verifyRefreshToken`, whatever the environment and clock. -/
lemma verifyRefreshToken_wrong_kind (env : Env) (t : Jwt) (now : Nat)
    (h : t.payload.type ≠ "refresh") :
    isOkE (verifyRefreshToken env t now) = false := by
  unfold verifyRefreshToken
  cases hj : jwtVerify t env.refreshSecret TOKEN_ISSUER TOKEN_AUDIENCE now with
  | error e => cases e <;> simp [isOkE]
  | ok p =>
      have hp := jwtVerify_ok_payload _ _ _ _ _ _ hj
      subst hp
      simp [isOkE, h]

/-- A token whose kind tag is not `access` is never accepted by
`verifyAccessToken`, whatever the environment and clock. -/
lemma verifyAccessToken_wrong_kind (env : Env) (t : Jwt) (now : Nat)
    (h : t.payload.type ≠ "access") :
    isOkE (verifyAccessToken env t now) = false := by
  unfold verifyAccessToken
  cases hj : jwtVerify t env.accessSecret TOKEN_ISSUER TOKEN_AUDIENCE now with
  | error e => cases e <;> simp [isOkE]
  | ok p =>
      have hp := jwtVerify_ok_payload _ _ _ _ _ _ hj
      subst hp
      simp [isOkE, h]

/- ===================== Claim C5 ===================== -/

/-- Claim C5: a token issued with kind `access` (no kind override in the
extra payload) always fails verification as a `refresh` token, and a
token issued with kind `refresh` always fails verification as an
`access` token — for every environment, subject id, issue time and
clock; no token is accepted across kinds. -/
theorem tokens_never_cross_kinds (env : Env) (uid : String)
    (issuedAt now : Nat) (t : Jwt) :
    (generateAccessToken env uid none issuedAt = Except.ok t →
      isOkE (verifyRefreshToken env t now) = false) ∧
    (generateRefreshToken env uid none issuedAt = Except.ok t →
      isOkE (verifyAccessToken env t now) = false) := by
  constructor
  · intro hgen
    unfold generateAccessToken at hgen
    split at hgen
    · cases hgen
    · cases hgen
      exact verifyRefreshToken_wrong_kind env _ now (by simp)
  · intro hgen
    unfold generateRefreshToken at hgen
    split at hgen
    · cases hgen
    · cases hgen
      exact verifyAccessToken_wrong_kind env _ now (by simp)

/-- A concrete environment for the witnesses. -/
def envW : Env := ⟨"access-signing-secret-0123456789ab", "refresh-signing-secret-0123456789", 86400, 864000⟩

/-- The access token `envW` issues for subject "u1" at time 0. -/
def accessTokW : Jwt :=
  ⟨⟨"u1", "access"⟩, TOKEN_ISSUER, TOKEN_AUDIENCE, 86400, envW.accessSecret⟩

/-- The refresh token `envW` issues for subject "u1" at time 0. -/
def refreshTokW : Jwt :=
  ⟨⟨"u1", "refresh"⟩, TOKEN_ISSUER, TOKEN_AUDIENCE, 864000, envW.refreshSecret⟩

/-- Witness for C5 at a concrete environment, subject and clock. -/
theorem tokens_never_cross_kinds_witness :
    (generateAccessToken envW "u1" none 0 = Except.ok accessTokW ∧
      isOkE (verifyRefreshToken envW accessTokW 10) = false) ∧
    (generateRefreshToken envW "u1" none 0 = Except.ok refreshTokW ∧
      isOkE (verifyAccessToken envW refreshTokW 10) = false) :=
  ⟨⟨rfl, (tokens_never_cross_kinds envW "u1" 0 10 accessTokW).1 rfl⟩,
   ⟨rfl, (tokens_never_cross_kinds envW "u1" 0 10 refreshTokW).2 rfl⟩⟩

/- ===================== Claim C3 ===================== -/

/-- Claim C3 (code behaviour at the failing input): verifying an expired
access token in the Authentication Gate produces the generic
"Authentication failed" ApiError — not the distinct
"Access token has expired" entry of the error map — because
`verifyAccessToken` rethrows a plain `Error` whose `name` misses the
map's `TokenExpiredError` key; the expiry only survives in the detail
field. -/
theorem expired_token_yields_generic_error (env : Env) (uid : String)
    (issuedAt now : Nat) (t : Jwt)
    (hgen : generateAccessToken env uid none issuedAt = Except.ok t)
    (hexp : t.exp ≤ now) :
    authGateTokenError env t now =
      some ⟨401, "Authentication failed", "Access token has expired"⟩ ∧
    authGateTokenError env t now ≠
      some (handleAuthError ⟨"TokenExpiredError", "jwt expired"⟩) := by
  unfold generateAccessToken at hgen
  split at hgen
  · cases hgen
  · cases hgen
    have hexp' : issuedAt + env.accessExpirySec ≤ now := by simpa using hexp
    constructor
    · simp [authGateTokenError, verifyAccessToken, jwtVerify, handleAuthError,
        hexp']
    · simp [authGateTokenError, verifyAccessToken, jwtVerify, handleAuthError,
        hexp']

/-- Witness for C3 at a concrete expired token. -/
theorem expired_token_yields_generic_error_witness :
    authGateTokenError envW accessTokW 200000 =
      some ⟨401, "Authentication failed", "Access token has expired"⟩ ∧
    authGateTokenError envW accessTokW 200000 ≠
      some (handleAuthError ⟨"TokenExpiredError", "jwt expired"⟩) :=
  expired_token_yields_generic_error envW "u1" 0 200000 accessTokW rfl
    (by decide)

/- ===================== Claim C8 ===================== -/

/-- Claim C8: a logout request with no refresh-token cookie always gets
HTTP 200 reporting zero sessions deleted, whether or not the access
token resolved to a user. -/
theorem logout_no_refresh_cookie_succeeds (accessUserId : Option Nat)
    (now : Nat) (db : List Session) (users : List User) :
    (logout none accessUserId now db users).status = 200 ∧
    (logout none accessUserId now db users).sessionsDeleted = 0 := by
  cases accessUserId <;> simp [logout]

/- ===================== Claim C7 ===================== -/

/-- Claim C7: the periodic cleanup keeps exactly the sessions that are
unexpired and active: it deletes every session with `expiresAt < now`
or `isActive = false` — in particular an expired but still active
session — and touches no active, unexpired session. -/
theorem periodicCleanup_deletes_exactly (now : Nat) (db : List Session) :
    (∀ s, s ∈ (cleanExpiredSessions now db).1 ↔
        s ∈ db ∧ ¬(s.expiresAt < now) ∧ s.isActive = true) ∧
    (∀ s ∈ db, s.expiresAt < now → s.isActive = true →
        s ∉ (cleanExpiredSessions now db).1) ∧
    (∀ s ∈ db, now ≤ s.expiresAt → s.isActive = true →
        s ∈ (cleanExpiredSessions now db).1) := by
  have hm : ∀ s, s ∈ (cleanExpiredSessions now db).1 ↔
      s ∈ db ∧ ¬(s.expiresAt < now) ∧ s.isActive = true := by
    intro s
    simp [cleanExpiredSessions, deleteMany, List.mem_filter, and_assoc]
  refine ⟨hm, fun s hs h1 h2 hmem => ?_, fun s hs h1 h2 => ?_⟩
  · exact absurd ((hm s).mp hmem).2.1 (by omega)
  · exact (hm s).mpr ⟨hs, by omega, h2⟩

/-- Concrete sessions and store for the C7 witness: one expired-active
session, one active and unexpired. -/
def expiredActiveW : Session := ⟨1, 1, "r1", "a1", Provider.google, true, 0, 50, none⟩

def liveSessionW : Session := ⟨2, 1, "r2", "a2", Provider.google, true, 0, 200, none⟩

def cleanupDbW : List Session := [expiredActiveW, liveSessionW]

/-- Witness for C7: at time 100 the expired-active session is deleted
and the live one survives. -/
theorem periodicCleanup_deletes_exactly_witness :
    expiredActiveW ∉ (cleanExpiredSessions 100 cleanupDbW).1 ∧
    liveSessionW ∈ (cleanExpiredSessions 100 cleanupDbW).1 :=
  ⟨(periodicCleanup_deletes_exactly 100 cleanupDbW).2.1 expiredActiveW
      (by decide) (by decide) (by decide),
   (periodicCleanup_deletes_exactly 100 cleanupDbW).2.2 liveSessionW
      (by decide) (by decide) (by decide)⟩

/- ===================== Claim C9 ===================== -/

/-- Pointwise update of a user list preserves nonnegative counters when
the update does. -/
lemma map_users_nonneg (users : List User) (f : User → User)
    (hf : ∀ v, 0 ≤ v.loginCount → 0 ≤ (f v).loginCount)
    (hall : ∀ v ∈ users, 0 ≤ v.loginCount) :
    ∀ v ∈ users.map f, 0 ≤ v.loginCount := by
  intro v hv
  rcases List.mem_map.mp hv with ⟨w, hw, rfl⟩
  exact hf w (hall w hw)

/-- `decrementLoginCount` never produces a negative counter. -/
lemma decrementLoginCount_nonneg (u : User) (h : 0 ≤ u.loginCount) :
    0 ≤ u.decrementLoginCount.loginCount := by
  unfold User.decrementLoginCount
  split
  · simp
    omega
  · exact h

/-- The single-logout decrement pass keeps every counter nonnegative. -/
lemma decrementLoginCountFor_nonneg (uid : Nat) (users : List User)
    (hall : ∀ v ∈ users, 0 ≤ v.loginCount) :
    ∀ v ∈ decrementLoginCountFor uid users, 0 ≤ v.loginCount := by
  unfold decrementLoginCountFor
  refine map_users_nonneg users _ (fun v hv => ?_) hall
  dsimp only
  split
  · exact decrementLoginCount_nonneg v hv
  · exact hv

/-- Claim C9: every operation that touches the denormalized
active-session counter — the login increment, the single-logout
decrement, the logout-others reset to 1 and the logout-all reset to 0 —
keeps it nonnegative. -/
theorem loginCount_never_negative (u : User) (now userId : Nat)
    (tok rt : String) (db : List Session) (users : List User)
    (uidOpt : Option Nat) (hu : 0 ≤ u.loginCount)
    (hall : ∀ v ∈ users, 0 ≤ v.loginCount) :
    0 ≤ (u.updateLoginInfo now).loginCount ∧
    0 ≤ u.decrementLoginCount.loginCount ∧
    (∀ v ∈ (invalidateAllOtherSessions now userId tok db users).users,
      0 ≤ v.loginCount) ∧
    (∀ v ∈ (logout (some rt) uidOpt now db users).users, 0 ≤ v.loginCount) ∧
    (∀ v ∈ (logoutAllDevices uidOpt db users).users, 0 ≤ v.loginCount) := by
  refine ⟨?_, decrementLoginCount_nonneg u hu, ?_, ?_, ?_⟩
  · simp [User.updateLoginInfo]
    omega
  · unfold invalidateAllOtherSessions
    dsimp only
    split
    · refine map_users_nonneg users _ (fun v hv => ?_) hall
      dsimp only
      split
      · simp
      · exact hv
    · exact hall
  · have hmain : ∀ v ∈ (deleteSessionAndUpdateCount rt uidOpt db users).2.1,
        0 ≤ v.loginCount := by
      unfold deleteSessionAndUpdateCount
      cases uidOpt with
      | none => simpa using hall
      | some uid =>
          dsimp only
          split
          · exact decrementLoginCountFor_nonneg uid users hall
          · simpa using hall
    simpa [logout] using hmain
  · unfold logoutAllDevices
    cases uidOpt with
    | none => exact hall
    | some uid =>
        dsimp only
        split
        · refine map_users_nonneg users _ (fun v hv => ?_) hall
          dsimp only
          split
          · simp
          · exact hv
        · exact hall

/-- Witness for C9 at a concrete user and one-user store. -/
theorem loginCount_never_negative_witness :
    0 ≤ ((⟨1, "a@x.com", "A", "", some "g1", none, none, true, 0, 2⟩ :
        User).updateLoginInfo 5).loginCount ∧
    0 ≤ (⟨1, "a@x.com", "A", "", some "g1", none, none, true, 0, 2⟩ :
        User).decrementLoginCount.loginCount ∧
    (∀ v ∈ (invalidateAllOtherSessions 5 1 "a1" []
        [⟨1, "a@x.com", "A", "", some "g1", none, none, true, 0, 2⟩]).users,
      0 ≤ v.loginCount) ∧
    (∀ v ∈ (logout (some "r1") (some 1) 5 []
        [⟨1, "a@x.com", "A", "", some "g1", none, none, true, 0, 2⟩]).users,
      0 ≤ v.loginCount) ∧
    (∀ v ∈ (logoutAllDevices (some 1) []
        [⟨1, "a@x.com", "A", "", some "g1", none, none, true, 0, 2⟩]).users,
      0 ≤ v.loginCount) :=
  loginCount_never_negative ⟨1, "a@x.com", "A", "", some "g1", none, none,
      true, 0, 2⟩ 5 1 "a1" "r1" []
    [⟨1, "a@x.com", "A", "", some "g1", none, none, true, 0, 2⟩] (some 1)
    (by decide) (by decide)

/- ===================== Claims C6 and C10 ===================== -/

/-- Bumping login metadata touches neither the id nor the provider
slots. -/
lemma updateLoginInfo_providerId (u : User) (now : Nat) (p : Provider) :
    (u.updateLoginInfo now).providerId p = u.providerId p := by
  cases p <;> rfl

lemma updateLoginInfo_uid (u : User) (now : Nat) :
    (u.updateLoginInfo now).uid = u.uid := rfl

/-- Setting a provider slot sets that slot and keeps the id. -/
lemma setProviderId_providerId (u : User) (p : Provider) (v : String) :
    (u.setProviderId p v).providerId p = some v := by
  cases p <;> rfl

lemma setProviderId_uid (u : User) (p : Provider) (v : String) :
    (u.setProviderId p v).uid = u.uid := by
  cases p <;> rfl

/-- Saving a user back keeps the collection's ids (and so its size). -/
lemma saveUser_map_uid (db : List User) (u : User) :
    (saveUser db u).map User.uid = db.map User.uid := by
  unfold saveUser
  rw [List.map_map]
  refine List.map_congr_left (fun v hv => ?_)
  dsimp only [Function.comp]
  split
  · next h =>
      simp only [beq_iff_eq] at h
      exact h.symm
  · rfl

/-- Claim C6: when the lookup finds an existing user whose slot for the
logging-in provider is empty (an email match), `loginOrCreateUser`
backfills that provider's id onto the existing record and creates no
user: the resolved user keeps its id, now carries the provider id, and
the collection keeps exactly the same user ids (so the same size). -/
theorem resolve_backfills_provider_id (provider : Provider)
    (id email name avatar : String) (newUid now : Nat) (db : List User)
    (u : User) (hfind : findExistingUser provider id email db = some u)
    (hnone : u.providerId provider = none) :
    (loginOrCreateUserCore provider id email name avatar newUid now db).1.uid
        = u.uid ∧
    (loginOrCreateUserCore provider id email name avatar newUid now
        db).1.providerId provider = some id ∧
    ((loginOrCreateUserCore provider id email name avatar newUid now
        db).2).map User.uid = db.map User.uid ∧
    (loginOrCreateUserCore provider id email name avatar newUid now
        db).2.length = db.length := by
  unfold loginOrCreateUserCore
  rw [hfind]
  dsimp only
  unfold updateUserProviderData
  rw [if_pos hnone]
  refine ⟨?_, ?_, ?_, ?_⟩
  · rw [updateLoginInfo_uid, setProviderId_uid]
  · rw [updateLoginInfo_providerId, setProviderId_providerId]
  · exact saveUser_map_uid db _
  · have h := congrArg List.length (saveUser_map_uid db
      ((u.setProviderId provider id).updateLoginInfo now))
    simpa using h

/-- Concrete store for the C6 witness: one user signed up via Google,
now logging in via GitHub with the same email. -/
def c6User : User := ⟨1, "a@x.com", "A", "", some "g1", none, none, true, 0, 1⟩

/-- Witness for C6: the GitHub id is backfilled, no user is created. -/
theorem resolve_backfills_provider_id_witness :
    (loginOrCreateUserCore Provider.github "gh1" "a@x.com" "A" "" 2 9
        [c6User]).1.uid = c6User.uid ∧
    (loginOrCreateUserCore Provider.github "gh1" "a@x.com" "A" "" 2 9
        [c6User]).1.providerId Provider.github = some "gh1" ∧
    ((loginOrCreateUserCore Provider.github "gh1" "a@x.com" "A" "" 2 9
        [c6User]).2).map User.uid = [c6User].map User.uid ∧
    (loginOrCreateUserCore Provider.github "gh1" "a@x.com" "A" "" 2 9
        [c6User]).2.length = [c6User].length :=
  resolve_backfills_provider_id Provider.github "gh1" "a@x.com" "A" "" 2 9
    [c6User] c6User (by decide) (by decide)

/-- Claim C10: when the matched user already holds a provider id for the
logging-in provider, a later login via that provider leaves the stored
id untouched — the incoming id is discarded — and the login resolves to
that same existing account, with no change to the set of user ids. -/
theorem provider_id_never_overwritten (provider : Provider)
    (id email name avatar : String) (newUid now : Nat) (db : List User)
    (u : User) (v : String)
    (hfind : findExistingUser provider id email db = some u)
    (hhas : u.providerId provider = some v) :
    (loginOrCreateUserCore provider id email name avatar newUid now db).1.uid
        = u.uid ∧
    (loginOrCreateUserCore provider id email name avatar newUid now
        db).1.providerId provider = some v ∧
    ((loginOrCreateUserCore provider id email name avatar newUid now
        db).2).map User.uid = db.map User.uid := by
  unfold loginOrCreateUserCore
  rw [hfind]
  dsimp only
  unfold updateUserProviderData
  rw [if_neg (by simp [hhas])]
  refine ⟨updateLoginInfo_uid u now, ?_, saveUser_map_uid db _⟩
  rw [updateLoginInfo_providerId, hhas]

/-- Witness for C10: logging in via Google with a different incoming
Google id "g2" leaves the stored "g1" in place. -/
theorem provider_id_never_overwritten_witness :
    (loginOrCreateUserCore Provider.google "g2" "a@x.com" "A" "" 2 9
        [c6User]).1.uid = c6User.uid ∧
    (loginOrCreateUserCore Provider.google "g2" "a@x.com" "A" "" 2 9
        [c6User]).1.providerId Provider.google = some "g1" ∧
    ((loginOrCreateUserCore Provider.google "g2" "a@x.com" "A" "" 2 9
        [c6User]).2).map User.uid = [c6User].map User.uid :=
  provider_id_never_overwritten Provider.google "g2" "a@x.com" "A" "" 2 9
    [c6User] c6User "g1" (by decide) (by decide)

/- ===================== Claim C2 ===================== -/

/-- After the `updateMany`, the user's remaining active sessions are
exactly the previously active ones carrying the caller's access
token. -/
lemma deactivate_filter_eq (now userId : Nat) (tok : String) :
    ∀ db : List Session,
      ((db.map (fun s => if otherActiveSession userId tok s then
          { s with isActive := false, loggedOutAt := some now } else s)).filter
        (fun s => s.userId == userId && s.isActive)) =
      db.filter (fun s => s.userId == userId && s.isActive &&
        s.accessToken == tok)
  | [] => rfl
  | s :: rest => by
      have ih := deactivate_filter_eq now userId tok rest
      by_cases hu : (s.userId == userId) = true
      · by_cases ha : s.isActive = true
        · by_cases ht : (s.accessToken == tok) = true
          · have ht' : s.accessToken = tok := by simpa using ht
            have hother : otherActiveSession userId tok s = false := by
              simp [otherActiveSession, hu, ha, ht']
            simp [hother, List.filter_cons, hu, ha, ht, ih]
          · have ht' : ¬s.accessToken = tok := by simpa using ht
            have hother : otherActiveSession userId tok s = true := by
              simp [otherActiveSession, hu, ha, ht']
            simp [hother, List.filter_cons, hu, ha, ht, ih]
        · have hother : otherActiveSession userId tok s = false := by
            simp [otherActiveSession, ha]
          simp [hother, List.filter_cons, ha, ih]
      · have hother : otherActiveSession userId tok s = false := by
          simp [otherActiveSession, hu]
        simp [hother, List.filter_cons, hu, ih]

/-- The session of the caller and its user record, with a drifted
counter, for the C2 counterexample. -/
def c2SessionW : Session := ⟨1, 1, "r1", "a1", Provider.google, true, 0, 1000, none⟩

def c2UserW : User := ⟨1, "a@x.com", "A", "", some "g1", none, none, true, 0, 2⟩

/-- Counterexample to claim C2 as stated: the caller (user 1,
authenticated — its active session carries the presented access token
"a1") has no other active session, so `invalidateAllOtherSessions`
modifies nothing and leaves the active-session counter at 2, not 1. -/
theorem logoutOthers_counter_not_reset :
    (([c2SessionW] : List Session).filter (fun s => s.userId == 1 &&
        s.isActive && s.accessToken == "a1")).length = 1 ∧
    (invalidateAllOtherSessions 5 1 "a1" [c2SessionW] [c2UserW]).users.map
        User.loginCount = [2] := by
  decide

/-- Claim C2 as amended: after `logoutOthers` by an authenticated caller
(exactly one active session carries the caller's token), exactly one
active session remains for the user and it is the caller's; the user's
counter is reset to 1 when at least one other session was invalidated,
and left unchanged otherwise. -/
theorem logoutOthers_amended (now userId : Nat) (tok : String)
    (db : List Session) (usr : User) (huid : usr.uid = userId)
    (hone : (db.filter (fun s => s.userId == userId && s.isActive &&
        s.accessToken == tok)).length = 1) :
    ((invalidateAllOtherSessions now userId tok db [usr]).sessions.filter
        (fun s => s.userId == userId && s.isActive)).length = 1 ∧
    (∀ s ∈ (invalidateAllOtherSessions now userId tok db [usr]).sessions.filter
        (fun s => s.userId == userId && s.isActive), s.accessToken = tok) ∧
    (invalidateAllOtherSessions now userId tok db [usr]).users =
      [{ usr with loginCount :=
          if 0 < (invalidateAllOtherSessions now userId tok db
              [usr]).invalidatedSessions
          then 1 else usr.loginCount }] := by
  have hsess : (invalidateAllOtherSessions now userId tok db [usr]).sessions =
      db.map (fun s => if otherActiveSession userId tok s then
        { s with isActive := false, loggedOutAt := some now } else s) := rfl
  have hfe := deactivate_filter_eq now userId tok db
  refine ⟨?_, ?_, ?_⟩
  · rw [hsess, hfe, hone]
  · intro s hs
    rw [hsess, hfe] at hs
    have := List.mem_filter.mp hs
    simp only [Bool.and_eq_true, beq_iff_eq] at this
    exact this.2.2
  · show (if 0 < (db.filter (otherActiveSession userId tok)).length then
        ([usr].map (fun u => if u.uid == userId then
          { u with loginCount := 1 } else u)) else [usr]) = _
    have hm : (invalidateAllOtherSessions now userId tok db
        [usr]).invalidatedSessions =
        (db.filter (otherActiveSession userId tok)).length := rfl
    rw [hm]
    split
    · simp [huid]
    · rfl

/-- A second active session of user 1 on another device, for the C2
witness. -/
def c2OtherSessionW : Session :=
  ⟨2, 1, "r2", "a2", Provider.google, true, 1, 1000, none⟩

/-- Witness for the amended C2 at a concrete two-session store. -/
theorem logoutOthers_amended_witness :
    ((invalidateAllOtherSessions 5 1 "a1" [c2SessionW, c2OtherSessionW]
        [c2UserW]).sessions.filter
        (fun s => s.userId == 1 && s.isActive)).length = 1 ∧
    (∀ s ∈ (invalidateAllOtherSessions 5 1 "a1" [c2SessionW, c2OtherSessionW]
        [c2UserW]).sessions.filter
        (fun s => s.userId == 1 && s.isActive), s.accessToken = "a1") ∧
    (invalidateAllOtherSessions 5 1 "a1" [c2SessionW, c2OtherSessionW]
        [c2UserW]).users =
      [{ c2UserW with loginCount :=
          if 0 < (invalidateAllOtherSessions 5 1 "a1"
              [c2SessionW, c2OtherSessionW] [c2UserW]).invalidatedSessions
          then 1 else c2UserW.loginCount }] :=
  logoutOthers_amended 5 1 "a1" [c2SessionW, c2OtherSessionW] c2UserW
    (by decide) (by decide)

/- ===================== Claim C4 ===================== -/

/-- `deleteOne` reports one deletion exactly when an active session
carries the refresh token. -/
lemma deleteOneSession_count (rt : String) : ∀ db : List Session,
    (deleteOneSession rt db).2 =
      min (db.filter (fun s => s.refreshToken == rt && s.isActive)).length 1
  | [] => rfl
  | s :: rest => by
      by_cases h : (s.refreshToken == rt && s.isActive) = true
      · simp [deleteOneSession, h, List.filter_cons]
      · simp [deleteOneSession, h, List.filter_cons,
          deleteOneSession_count rt rest]

/-- A filtered store keeps a "no matches" fact of the full store. -/
lemma filter_filter_nil (l : List Session) (q p : Session → Bool)
    (h : l.filter p = []) : (l.filter q).filter p = [] := by
  refine List.filter_eq_nil_iff.mpr (fun x hx => ?_)
  exact List.filter_eq_nil_iff.mp h x (List.mem_of_mem_filter hx)

/-- With globally unique refresh tokens, `deleteOne` leaves no active
session carrying the token. -/
lemma deleteOneSession_removes (rt : String) : ∀ db : List Session,
    (db.filter (fun s => s.refreshToken == rt)).length ≤ 1 →
    ((deleteOneSession rt db).1.filter
      (fun s => s.refreshToken == rt && s.isActive)) = []
  | [] => fun _ => rfl
  | s :: rest => fun h => by
      by_cases hm : (s.refreshToken == rt && s.isActive) = true
      · have hsrt : (s.refreshToken == rt) = true := by
          have h' := hm
          simp only [Bool.and_eq_true] at h'
          exact h'.1
        have hrest : (rest.filter (fun s => s.refreshToken == rt)).length = 0 := by
          rw [List.filter_cons, if_pos hsrt] at h
          simp only [List.length_cons] at h
          omega
        have h0 : rest.filter (fun s => s.refreshToken == rt) = [] :=
          List.length_eq_zero.mp hrest
        simp [deleteOneSession, hm]
        intro x hx hrt
        exact absurd (show (x.refreshToken == rt) = true by simp [hrt])
          (List.filter_eq_nil_iff.mp h0 x hx)
      · have hle : (rest.filter (fun s => s.refreshToken == rt)).length ≤ 1 := by
          rw [List.filter_cons] at h
          split at h
          · simp only [List.length_cons] at h
            omega
          · exact h
        have ih := deleteOneSession_removes rt rest hle
        simp [deleteOneSession, hm, List.filter_cons, ih]

/-- The sessions a `logout` with both cookies leaves behind, through
the branchy helper: first component is always `deleteOne`'s survivors. -/
lemma deleteSessionAndUpdateCount_fst (rt : String) (uid : Nat)
    (db : List Session) (users : List User) :
    (deleteSessionAndUpdateCount rt (some uid) db users).1 =
      (deleteOneSession rt db).1 := by
  unfold deleteSessionAndUpdateCount
  dsimp only
  split <;> rfl

lemma deleteSessionAndUpdateCount_count (rt : String) (uid : Nat)
    (db : List Session) (users : List User) :
    (deleteSessionAndUpdateCount rt (some uid) db users).2.2 =
      (deleteOneSession rt db).2 := by
  unfold deleteSessionAndUpdateCount
  dsimp only
  split <;> rfl

/-- A session store for the C4 counterexample: the session matching the
refresh-token cookie is already inactive. -/
def c4InactiveW : Session := ⟨1, 5, "r", "a", Provider.google, false, 0, 999999, none⟩

/-- The same session while still active. -/
def c4ActiveW : Session := ⟨1, 5, "r", "a", Provider.google, true, 0, 999999, none⟩

/-- The owning user, with exactly one counted session. -/
def c4UserW : User := ⟨5, "b@x.com", "B", "", none, some "gh1", none, true, 0, 1⟩

/-- Counterexample to claim C4 as stated, at logout requests carrying
the refresh-token cookie "r" but no usable access token: (a) when the
matching session is inactive, it is not deleted — the store is
unchanged; (b) when it is active, it is deleted (count 1) but the
owning user's counter is not decremented — it stays 1 instead of
dropping to 0. -/
theorem logout_current_counterexample :
    (logout (some "r") none 10 [c4InactiveW] [c4UserW]).sessions =
      [c4InactiveW] ∧
    ((logout (some "r") none 10 [c4ActiveW] [c4UserW]).sessionsDeleted = 1 ∧
     (logout (some "r") none 10 [c4ActiveW] [c4UserW]).users.map
        User.loginCount = [1]) := by
  decide

/-- Claim C4 as amended: for a logout carrying the refresh-token cookie
and a valid access token identifying user `uid` (with refresh tokens
unique across the store), the one active session matching the refresh
token is deleted — none survives — the reported count is 1 exactly when
such a session existed, the counter of the identified user is
decremented (floor zero) exactly when the deletion happened, and the
counter stays nonnegative. -/
theorem logout_current_amended (rt : String) (uid now : Nat)
    (db : List Session) (usr : User)
    (huniq : (db.filter (fun s => s.refreshToken == rt)).length ≤ 1)
    (huid : usr.uid = uid) (hc : 0 ≤ usr.loginCount) :
    ((logout (some rt) (some uid) now db [usr]).sessions.filter
        (fun s => s.refreshToken == rt && s.isActive)) = [] ∧
    (logout (some rt) (some uid) now db [usr]).sessionsDeleted =
      min (db.filter (fun s => s.refreshToken == rt && s.isActive)).length 1 ∧
    (logout (some rt) (some uid) now db [usr]).users =
      [if 0 < (logout (some rt) (some uid) now db [usr]).sessionsDeleted
        then usr.decrementLoginCount else usr] ∧
    (∀ v ∈ (logout (some rt) (some uid) now db [usr]).users,
      0 ≤ v.loginCount) := by
  have hsess : (logout (some rt) (some uid) now db [usr]).sessions =
      cleanupExpiredSessionsFor uid now (deleteOneSession rt db).1 := by
    show cleanupExpiredSessionsFor uid now
        (deleteSessionAndUpdateCount rt (some uid) db [usr]).1 = _
    rw [deleteSessionAndUpdateCount_fst]
  have hdel : (logout (some rt) (some uid) now db [usr]).sessionsDeleted =
      (deleteOneSession rt db).2 := deleteSessionAndUpdateCount_count rt uid db [usr]
  have husers : (logout (some rt) (some uid) now db [usr]).users =
      (if (deleteOneSession rt db).2 > 0 then decrementLoginCountFor uid [usr]
        else [usr]) := by
    show (deleteSessionAndUpdateCount rt (some uid) db [usr]).2.1 = _
    unfold deleteSessionAndUpdateCount
    dsimp only
    split <;> simp_all
  refine ⟨?_, ?_, ?_, ?_⟩
  · rw [hsess]
    unfold cleanupExpiredSessionsFor deleteMany
    exact filter_filter_nil _ _ _ (deleteOneSession_removes rt db huniq)
  · rw [hdel, deleteOneSession_count rt db]
  · rw [husers, hdel]
    split
    · simp [decrementLoginCountFor, huid]
    · rfl
  · rw [husers]
    split
    · simp only [decrementLoginCountFor, List.map, huid]
      intro v hv
      simp only [List.mem_singleton] at hv
      subst hv
      split
      · exact decrementLoginCount_nonneg usr hc
      · exact hc
    · intro v hv
      simp only [List.mem_singleton] at hv
      subst hv
      exact hc

/-- Witness for the amended C4 at a concrete one-session store. -/
theorem logout_current_amended_witness :
    ((logout (some "r") (some 5) 10 [c4ActiveW] [c4UserW]).sessions.filter
        (fun s => s.refreshToken == "r" && s.isActive)) = [] ∧
    (logout (some "r") (some 5) 10 [c4ActiveW] [c4UserW]).sessionsDeleted =
      min (([c4ActiveW] : List Session).filter
        (fun s => s.refreshToken == "r" && s.isActive)).length 1 ∧
    (logout (some "r") (some 5) 10 [c4ActiveW] [c4UserW]).users =
      [if 0 < (logout (some "r") (some 5) 10 [c4ActiveW]
          [c4UserW]).sessionsDeleted
        then c4UserW.decrementLoginCount else c4UserW] ∧
    (∀ v ∈ (logout (some "r") (some 5) 10 [c4ActiveW] [c4UserW]).users,
      0 ≤ v.loginCount) :=
  logout_current_amended "r" 5 10 [c4ActiveW] c4UserW (by decide) (by decide)
    (by decide)

/- ===================== Claim C1 ===================== -/

/-- The session store after `k` logins while under the cap: the `k`
sessions of logins `0 … k-1`, all still active. -/
def stdLogins (userId k : Nat) : List Session :=
  (List.range k).map (fun i => loginSession userId i true)

lemma stdLogins_succ (u k : Nat) :
    stdLogins u (k + 1) = stdLogins u k ++ [loginSession u k true] := by
  unfold stdLogins
  rw [List.range_succ, List.map_append]
  rfl

lemma stdLogins_cons (u m : Nat) :
    stdLogins u (m + 1) = loginSession u 0 true ::
      (List.range m).map (fun i => loginSession u (i + 1) true) := by
  unfold stdLogins
  rw [List.range_succ_eq_map m, List.map_cons, List.map_map]
  rfl

lemma stdLogins_length (u k : Nat) : (stdLogins u k).length = k := by
  simp [stdLogins]

/-- Inserting an element below every element of a descending list puts
it at the end. -/
lemma insertByLastUsedDesc_append (x : Session) :
    ∀ l : List Session, (∀ y ∈ l, x.lastUsed < y.lastUsed) →
      insertByLastUsedDesc x l = l ++ [x]
  | [], _ => rfl
  | y :: ys, h => by
      have hy : x.lastUsed < y.lastUsed := h y (List.mem_cons_self y ys)
      rw [insertByLastUsedDesc, if_neg (by omega)]
      rw [insertByLastUsedDesc_append x ys
        (fun z hz => h z (List.mem_cons_of_mem y hz))]
      rfl

/-- Sorting a strictly ascending list descending reverses it. -/
lemma sortByLastUsedDesc_of_ascending :
    ∀ l : List Session, l.Pairwise (fun a b => a.lastUsed < b.lastUsed) →
      sortByLastUsedDesc l = l.reverse
  | [], _ => rfl
  | x :: xs, h => by
      rcases List.pairwise_cons.mp h with ⟨hx, hxs⟩
      rw [sortByLastUsedDesc, sortByLastUsedDesc_of_ascending xs hxs]
      rw [insertByLastUsedDesc_append x xs.reverse
        (fun y hy => hx y (List.mem_reverse.mp hy))]
      rw [List.reverse_cons]

/-- The post-login store is ascending in `lastUsed`. -/
lemma stdLogins_pairwise (u k : Nat) :
    (stdLogins u k).Pairwise (fun a b => a.lastUsed < b.lastUsed) := by
  unfold stdLogins
  exact (List.pairwise_lt_range k).map _ (fun a b hab => by
    simpa [loginSession] using hab)

/-- Login-time cleanup deletes nothing while every session is active
and far from expiry. -/
lemma clean_stdLogins (u k now : Nat) (hnow : now < REFRESH_EXPIRY_MS) :
    (cleanExpiredSessions now (stdLogins u k)).1 = stdLogins u k := by
  unfold cleanExpiredSessions deleteMany
  refine List.filter_eq_self.mpr (fun s hs => ?_)
  rcases List.mem_map.mp hs with ⟨i, _, rfl⟩
  simp [loginSession]
  omega

/-- While every stored session is active and unexpired, the
active-session query returns the whole store, most recent first. -/
lemma getActive_stdLogins (u k now : Nat) (hnow : now < REFRESH_EXPIRY_MS) :
    getActiveSessions now u (stdLogins u k) = (stdLogins u k).reverse := by
  unfold getActiveSessions
  have hfil : (stdLogins u k).filter
      (fun s => s.userId == u && s.isActive && decide (now < s.expiresAt)) =
      stdLogins u k := by
    refine List.filter_eq_self.mpr (fun s hs => ?_)
    rcases List.mem_map.mp hs with ⟨i, _, rfl⟩
    simp [loginSession]
    omega
  rw [hfil]
  exact sortByLastUsedDesc_of_ascending _ (stdLogins_pairwise u k)

/-- Cap enforcement does nothing while the user is under the cap. -/
lemma deactivateOldSessions_under_cap (now u cap : Nat) (db : List Session)
    (h : (getActiveSessions now u db).length < cap) :
    deactivateOldSessions now u cap db = db := by
  simp only [deactivateOldSessions]
  rw [if_neg (by omega)]

/-- Below the cap, each login leaves the straight-line store. -/
lemma runLogins_std (u N : Nat) (hE : N < REFRESH_EXPIRY_MS) :
    ∀ k, k ≤ N → runLogins u N k = stdLogins u k
  | 0, _ => rfl
  | k + 1, hk => by
      have hkN : k < N := hk
      have ih := runLogins_std u N hE k (Nat.le_of_lt hkN)
      show loginSessionStep u N k (k + 1) (runLogins u N k) = _
      rw [ih]
      unfold loginSessionStep performSessionCleanup
      rw [clean_stdLogins u k k (by omega)]
      rw [deactivateOldSessions_under_cap k u N (stdLogins u k) (by
        rw [getActive_stdLogins u k k (by omega)]
        simp only [List.length_reverse, stdLogins_length]
        omega)]
      unfold createUserSession
      rw [stdLogins_succ]
      rfl

/-- `slice` at a nonnegative index is `drop`. -/
lemma jsSliceFrom_ofNat (m : Nat) (l : List Session) :
    jsSliceFrom (m : Int) l = l.drop m := by
  simp [jsSliceFrom]

/-- Dropping all but one of a reversed cons leaves the old head. -/
lemma drop_reverse_cons (x : Session) (l : List Session) (n : Nat)
    (h : n = l.length) : ((x :: l).reverse).drop n = [x] := by
  subst h
  rw [List.reverse_cons]
  have h2 : l.length = l.reverse.length := (List.length_reverse l).symm
  rw [h2, List.drop_left]

/-- The login that hits the cap: the least-recently-used session (the
first login's) is deactivated and the new session appended. -/
lemma loginSessionStep_at_cap (u m : Nat) (hE : m + 1 < REFRESH_EXPIRY_MS) :
    loginSessionStep u (m + 1) (m + 1) (m + 2) (stdLogins u (m + 1)) =
      loginSession u 0 false ::
        ((List.range m).map (fun i => loginSession u (i + 1) true) ++
          [loginSession u (m + 1) true]) := by
  unfold loginSessionStep performSessionCleanup
  rw [clean_stdLogins u (m + 1) (m + 1) hE]
  simp only [deactivateOldSessions]
  rw [getActive_stdLogins u (m + 1) (m + 1) hE]
  rw [if_pos (by simp [stdLogins_length])]
  have hslice : jsSliceFrom (((m + 1 : Nat) : Int) - 1)
      ((stdLogins u (m + 1)).reverse) = [loginSession u 0 true] := by
    have hcast : ((m + 1 : Nat) : Int) - 1 = (m : Int) := by push_cast; ring
    rw [hcast, jsSliceFrom_ofNat]
    rw [stdLogins_cons]
    rw [drop_reverse_cons _ _ m (by simp)]
  rw [hslice]
  have hmap : (stdLogins u (m + 1)).map (fun s =>
      if (([loginSession u 0 true].map Session.sid).contains s.sid) then
        { s with isActive := false } else s) =
      loginSession u 0 false ::
        (List.range m).map (fun i => loginSession u (i + 1) true) := by
    rw [stdLogins_cons, List.map_cons]
    have hhead : (if (([loginSession u 0 true].map Session.sid).contains
        (loginSession u 0 true).sid) then
          { loginSession u 0 true with isActive := false }
        else loginSession u 0 true) = loginSession u 0 false := by
      simp [loginSession, List.contains]
    rw [hhead, List.map_map]
    congr 1
  rw [hmap]
  unfold createUserSession
  rfl

/-- The target store of C1 written against the login index. -/
lemma closed_form_split (u m : Nat) :
    (List.range (m + 2)).map (fun i => loginSession u i (i != 0)) =
      loginSession u 0 false ::
        ((List.range m).map (fun i => loginSession u (i + 1) true) ++
          [loginSession u (m + 1) true]) := by
  rw [List.range_succ_eq_map (m + 1), List.map_cons, List.map_map]
  have h0 : loginSession u 0 ((0 : Nat) != 0) = loginSession u 0 false := rfl
  rw [h0]
  congr 1
  have hmap : (List.range (m + 1)).map
      ((fun i => loginSession u i (i != 0)) ∘ (· + 1)) =
      (List.range (m + 1)).map (fun i => loginSession u (i + 1) true) := by
    refine List.map_congr_left (fun i _ => ?_)
    simp [Function.comp]
  rw [hmap, List.range_succ, List.map_append]
  rfl

/-- Length bookkeeping for the map-filter in C1's active count. -/
lemma length_filter_map_sessions (l : List Nat) (f : Nat → Session)
    (p : Session → Bool) :
    ((l.map f).filter p).length = (l.filter (fun i => p (f i))).length := by
  induction l with
  | nil => rfl
  | cons a l ih =>
      rw [List.map_cons, List.filter_cons, List.filter_cons]
      by_cases h : p (f a) = true
      · rw [if_pos h, if_pos h]
        simp [ih]
      · rw [if_neg h, if_neg h]
        exact ih

lemma range_filter_ne_zero : ∀ N : Nat,
    ((List.range (N + 1)).filter (fun i => i != 0)).length = N
  | 0 => rfl
  | N + 1 => by
      rw [List.range_succ, List.filter_append]
      simp [range_filter_ne_zero N]

/-- Claim C1 (amended to caps `N ≥ 1`): `N + 1` logins under cap `N`,
starting from an empty store, leave the store with the first login's
session deactivated and every later session active — exactly `N` active
sessions, the least recently used one having been deactivated. -/
theorem session_cap_logins (userId N : Nat) (h1 : 1 ≤ N)
    (hE : N < REFRESH_EXPIRY_MS) :
    runLogins userId N (N + 1) =
      (List.range (N + 1)).map (fun i => loginSession userId i (i != 0)) ∧
    ((runLogins userId N (N + 1)).filter
      (fun s => s.userId == userId && s.isActive)).length = N ∧
    (∀ s ∈ runLogins userId N (N + 1), s.sid = 1 → s.isActive = false) := by
  obtain ⟨m, rfl⟩ : ∃ m, N = m + 1 := ⟨N - 1, by omega⟩
  have hrun : runLogins userId (m + 1) (m + 2) =
      (List.range (m + 2)).map (fun i => loginSession userId i (i != 0)) := by
    have h0 : runLogins userId (m + 1) (m + 2) =
        loginSessionStep userId (m + 1) (m + 1) (m + 2)
          (stdLogins userId (m + 1)) := by
      show loginSessionStep userId (m + 1) (m + 1) (m + 2)
          (runLogins userId (m + 1) (m + 1)) = _
      rw [runLogins_std userId (m + 1) hE (m + 1) le_rfl]
    rw [h0, loginSessionStep_at_cap userId m hE, closed_form_split]
  refine ⟨hrun, ?_, ?_⟩
  · rw [hrun, length_filter_map_sessions]
    have hcong : (List.range (m + 2)).filter
        (fun i => (loginSession userId i (i != 0)).userId == userId &&
          (loginSession userId i (i != 0)).isActive) =
        (List.range (m + 2)).filter (fun i => i != 0) := by
      refine List.filter_congr (fun i _ => ?_)
      simp [loginSession]
    rw [hcong, range_filter_ne_zero]
  · intro s hs hsid
    rw [hrun] at hs
    rcases List.mem_map.mp hs with ⟨i, _, rfl⟩
    have hi0 : i = 0 := by
      have : i + 1 = 1 := hsid
      omega
    subst hi0
    rfl

/-- Witness for the amended C1: cap 3, four logins, user 7. -/
theorem session_cap_logins_witness :
    runLogins 7 3 4 =
      (List.range 4).map (fun i => loginSession 7 i (i != 0)) ∧
    ((runLogins 7 3 4).filter
      (fun s => s.userId == 7 && s.isActive)).length = 3 ∧
    (∀ s ∈ runLogins 7 3 4, s.sid = 1 → s.isActive = false) :=
  session_cap_logins 7 3 (by decide) (by decide)

/-- Counterexample to claim C1 as stated over every cap `N`: with cap 0,
a single login (`N + 1 = 1`) leaves one active session, not zero — the
`slice(-1)` of the enforcement step never deactivates enough sessions
for cap 0. -/
theorem session_cap_zero_counterexample :
    ((runLogins 7 0 1).filter (fun s => s.userId == 7 && s.isActive)).length
      = 1 := by
  decide
